import Mathlib

/-!
Shallow embedding of pty-stdio (src/main.c), a program that launches a
command on a freshly allocated pseudo-terminal and relays bytes between
the real standard streams and the PTY master.

Each C function is modelled as a pure Lean function over explicit
syscall-outcome inputs; process termination is modelled as an outcome
value carrying the exit code and any diagnostic printed to stderr.
-/

/-- The Linux errno value the code compares against in read_write
(src/main.c:75): 5, i.e. the error a read on a PTY master returns once
the slave side has been closed. -/
def eioErrno : Nat := 5

/-- The interrupt signal number used in terminal_settings. -/
def SIGINT : Nat := 2

/-- Result of one read(2) call: a byte list (the rc bytes placed in the
buffer, rc between 0 and the buffer size) or the errno observed when the
call returned -1. -/
inductive ReadResult where
  | ok (bytes : List Nat)
  | err (e : Nat)
deriving DecidableEq, Repr

/-- Outcome of one read_write call (src/main.c:67-82): either the call
returned after passing bytes to write(2) on a descriptor, or the process
terminated with an exit code and an optional stderr diagnostic. -/
inductive RWOutcome where
  | wrote (fd : Nat) (bytes : List Nat)
  | exited (code : Nat) (diag : Option String)
deriving DecidableEq, Repr

/-- Embedding of read_write (src/main.c:67-82): on a read error, exit 0
when errno is EIO, otherwise print a diagnostic naming the source and
exit 1 via fatal (src/main.c:36-46); on a successful read of rc bytes
(rc may be 0), pass exactly those bytes, unchanged and in order, to
write(outFd, input, rc). -/
def read_write (name : String) (_inFd outFd : Nat) (r : ReadResult) : RWOutcome :=
  match r with
  | .err e =>
      if e = eioErrno then .exited 0 none
      else .exited 1 (some ("Error " ++ toString e ++ " on read " ++ name))
  | .ok bytes => RWOutcome.wrote outFd bytes

/-- The read_write call the relay loop makes when standard input is
readable (src/main.c:135-136): source fd 0, destination the master. -/
def masterStdinCall (fdm : Nat) (r : ReadResult) : RWOutcome :=
  read_write "standard input" 0 fdm r

/-- The read_write call the relay loop makes when the PTY master is
readable (src/main.c:139-140): source the master, destination fd 1. -/
def masterPtyCall (fdm : Nat) (r : ReadResult) : RWOutcome :=
  read_write "master pty" fdm 1 r

/-- Abstract terminal mode attributes (struct termios): a raw-mode flag
plus the remaining attribute bits. -/
structure Termios where
  raw : Bool
  flags : Nat
deriving DecidableEq, Repr

/-- cfmakeraw(3): switch the attributes to raw mode (no line buffering,
no echo, no signal characters). -/
def cfmakeraw (t : Termios) : Termios := { t with raw := true }

/-- Terminal window size (struct winsize). -/
structure Winsize where
  rows : Nat
  cols : Nat
deriving DecidableEq, Repr

/-- POSIX semantics of siginterrupt(3): with flag 0, system calls
interrupted by the signal are restarted; with a nonzero flag they are
interrupted and fail with EINTR. Returns whether interrupted blocking
calls are restarted. -/
def siginterruptRestarts (flag : Nat) : Bool := flag == 0

/-- Embedding of handler (src/main.c:31-34), the installed SIGINT
handler: it calls exit(0). Returns the code passed to exit. -/
def handler (_sig : Nat) : Nat := 0

/-- Embedding of cleanup (src/main.c:26-29): tcsetattr the saved
old_termios back onto fd_termios, replacing the current mode. -/
def cleanup (saved : Termios) (_current : Termios) : Termios := saved

/-- Environment inputs consumed by terminal_settings: whether fd 0 and
fd 1 are terminals, the tcgetattr outcome on the chosen descriptor
(errno on failure), and the window size that descriptor reports. -/
structure TermEnv where
  isatty0 : Bool
  isatty1 : Bool
  tcgetattrResult : Except Nat Termios
  ws : Winsize
deriving Repr

/-- The effects performed by terminal_settings (src/main.c:84-118). -/
structure TermSetup where
  chosenFd : Option Nat
  winsizeApplied : Option Winsize
  saved : Option Termios
  atexitCleanup : Bool
  siginterruptFlag : Option Nat
  sigintHandler : Bool
  rawApplied : Bool
  fatalCode : Option Nat
deriving DecidableEq, Repr

/-- The part of terminal_settings after fd_termios is chosen
(src/main.c:97-117): copy the window size onto the master, save the
attributes via tcgetattr (fatal exit 1 on failure, before any
registration), register cleanup with atexit, call
siginterrupt(SIGINT, 1), install the SIGINT handler, and apply raw mode
with tcsetattr only when fd_termios is 0. -/
def terminal_settings_rest (env : TermEnv) (fd : Nat) : TermSetup :=
  match env.tcgetattrResult with
  | .error _ => ⟨some fd, some env.ws, none, false, none, false, false, some 1⟩
  | .ok t => ⟨some fd, some env.ws, some t, true, some 1, true, fd == 0, none⟩

/-- Embedding of terminal_settings (src/main.c:84-118): fd_termios is 0
if fd 0 is a tty, else 1 if fd 1 is a tty, else the function returns at
once having done nothing. -/
def terminal_settings (env : TermEnv) : TermSetup :=
  if env.isatty0 then terminal_settings_rest env 0
  else if env.isatty1 then terminal_settings_rest env 1
  else ⟨none, none, none, false, none, false, false, none⟩

/-- An exit path of the parent half after terminal_settings completed:
the relay observing errno EIO on the master (src/main.c:75-76), a fatal
relay error via fatal (a read error with another errno, src/main.c:78,
or a select failure, src/main.c:131-132), or SIGINT caught by handler
(src/main.c:31-34). -/
inductive ParentExit where
  | ptyClosed
  | relayFatal (src : String) (e : Nat)
  | sigint
deriving DecidableEq, Repr

/-- What a finished parent process left behind: the final mode of the
real terminal, the exit code, and how many times cleanup ran. -/
structure ParentResult where
  finalMode : Termios
  exitCode : Nat
  cleanupRuns : Nat
deriving DecidableEq, Repr

/-- exit(code) in the parent: the atexit handlers run, so when cleanup
was registered it runs exactly once, restoring the saved attributes onto
the terminal; otherwise the terminal is left as it is. -/
def procExit (s : TermSetup) (modeNow : Termios) (code : Nat) : ParentResult :=
  if s.atexitCleanup then
    ⟨(match s.saved with
      | some t => cleanup t modeNow
      | none => modeNow), code, 1⟩
  else ⟨modeNow, code, 0⟩

/-- The parent half from terminal_settings to termination, for a real
terminal whose mode at startup is m0 (so a successful tcgetattr returns
m0): the mode during relaying is the raw copy of m0 exactly when raw
mode was applied, and each exit path calls exit, running any registered
atexit handler. Codes: 0 for PTY closure (src/main.c:76), 1 for a fatal
relay error (src/main.c:45), and the handler value for SIGINT
(src/main.c:33). -/
def parentRun (isatty0 isatty1 : Bool) (m0 : Termios) (ws : Winsize)
    (path : ParentExit) : ParentResult :=
  let s := terminal_settings ⟨isatty0, isatty1, Except.ok m0, ws⟩
  let modeNow := if s.rawApplied then cfmakeraw m0 else m0
  match path with
  | .ptyClosed => procExit s modeNow 0
  | .relayFatal _ _ => procExit s modeNow 1
  | .sigint => procExit s modeNow (handler SIGINT)

/-- Outcomes of the system calls made by the child half in slave
(src/main.c:144-182): success of the three dup calls, of setsid, of
ioctl(0, TIOCSCTTY, 1), and of execvp. -/
structure SlaveEnv where
  dup0 : Bool
  dup1 : Bool
  dup2 : Bool
  setsidOk : Bool
  ioctlOk : Bool
  execOk : Bool
deriving DecidableEq, Repr

/-- Outcome of the child half: terminated with a code and diagnostic, or
its image was replaced by the target program (control never returns). -/
inductive SlaveOutcome where
  | exited (code : Nat) (diag : Option String)
  | execed
deriving DecidableEq, Repr

/-- Embedding of slave (src/main.c:144-182): close fds 0, 1, 2; dup the
slave fd three times, each checked and fatal (diagnostic, exit 1) on
failure; close the original slave fd; call setsid and
ioctl(0, TIOCSCTTY, 1), neither return value examined; execvp the
target, fatal on failure, image replaced on success. -/
def slave (env : SlaveEnv) : SlaveOutcome :=
  if env.dup0 = false then .exited 1 (some "Error on dup()")
  else if env.dup1 = false then .exited 1 (some "Error on dup()")
  else if env.dup2 = false then .exited 1 (some "Error on dup()")
  else if env.execOk then .execed
  else .exited 1 (some "Error on execvp()")

/-- dup(2) applied to the slave descriptor: it succeeds exactly when the
descriptor is valid; on an invalid descriptor (open of the slave device
failed and returned -1) it fails with EBADF. -/
def dupOfFd (fdValid : Bool) : Bool := fdValid

/-- The child half as a function of whether open(ptsname(fdm), O_RDWR)
in main (src/main.c:197) succeeded: all three dup calls work on that
descriptor. -/
def slaveFromOpen (openSlaveOk setsidOk ioctlOk execOk : Bool) : SlaveOutcome :=
  slave ⟨dupOfFd openSlaveOk, dupOfFd openSlaveOk, dupOfFd openSlaveOk,
         setsidOk, ioctlOk, execOk⟩

/-- Observable steps of main (src/main.c:184-214) up to the fork. -/
inductive MainAction where
  | usageDiag
  | exited (code : Nat)
  | posixOpenpt
  | grantptCall
  | unlockptCall
  | termSettings
  | openSlave
  | forked
deriving DecidableEq, Repr

/-- Embedding of open_master (src/main.c:48-65): posix_openpt, grantpt,
unlockpt in order, each fatal (exit 1) on failure. Returns the actions
performed and the fatal exit code, if any. -/
def open_master (openptOk grantOk unlockOk : Bool) :
    List MainAction × Option Nat :=
  if openptOk = false then ([.posixOpenpt], some 1)
  else if grantOk = false then ([.posixOpenpt, .grantptCall], some 1)
  else if unlockOk = false then
    ([.posixOpenpt, .grantptCall, .unlockptCall], some 1)
  else ([.posixOpenpt, .grantptCall, .unlockptCall], none)

/-- Environment inputs for the sequencing of main: the outcomes of the
three allocation calls and of the open of the slave device. -/
structure MainEnv where
  openptOk : Bool
  grantOk : Bool
  unlockOk : Bool
  openSlaveOk : Bool
deriving DecidableEq, Repr

/-- Embedding of the sequencing of main (src/main.c:184-214) up to the
fork: with ac <= 1 the usage diagnostic is printed and the process exits
1 before anything else; otherwise open_master runs (fatal on failure),
then terminal_settings, then the slave device is opened with the result
never examined (src/main.c:197), then the process forks. -/
def mainTrace (ac : Nat) (env : MainEnv) : List MainAction :=
  if ac ≤ 1 then [.usageDiag, .exited 1]
  else
    match open_master env.openptOk env.grantOk env.unlockOk with
    | (acts, some c) => acts ++ [.exited c]
    | (acts, none) => acts ++ [.termSettings, .openSlave, .forked]

/-- Claim C1: in the parent relay loop, a read on the PTY master that
fails with errno EIO (slave side closed, child exited) terminates the
process successfully with exit code 0 and no diagnostic; a master read
failing with any other errno is fatal, printing a diagnostic that names
the master and exiting with status 1. -/
theorem c1_master_eio_success_other_fatal (fdm e : Nat) (h : e ≠ eioErrno) :
    masterPtyCall fdm (ReadResult.err eioErrno) = RWOutcome.exited 0 none ∧
    masterPtyCall fdm (ReadResult.err e) =
      RWOutcome.exited 1
        (some ("Error " ++ toString e ++ " on read " ++ "master pty")) := by
  refine ⟨rfl, ?_⟩
  simp [masterPtyCall, read_write, h]

/-- Witness for C1 at fdm 9 and errno 4. -/
theorem c1_master_eio_success_other_fatal_witness :
    (4 : Nat) ≠ eioErrno ∧
    (masterPtyCall 9 (ReadResult.err eioErrno) = RWOutcome.exited 0 none ∧
     masterPtyCall 9 (ReadResult.err 4) =
       RWOutcome.exited 1
         (some ("Error " ++ toString (4 : Nat) ++ " on read " ++ "master pty"))) :=
  ⟨by decide, c1_master_eio_success_other_fatal 9 4 (by decide)⟩

/-- Claim C2 counterexample: a read error on real standard input with
errno EIO (concretely, master fd 9) makes the process exit with status 0
and no diagnostic, not with status 1 as the claim states for every
nonzero error code. -/
theorem c2_stdin_eio_exits_zero :
    masterStdinCall 9 (ReadResult.err eioErrno) = RWOutcome.exited 0 none := by
  decide

/-- Claim C2 (amended): in the parent relay loop, a read error on real
standard input with errno other than EIO is fatal, printing a diagnostic
naming standard input and exiting with status 1; a stdin read error with
errno EIO, exactly as on the master, terminates the process with exit
code 0, because read_write is shared between the two sources. -/
theorem c2_stdin_read_errors (fdm e : Nat) (h : e ≠ eioErrno) :
    masterStdinCall fdm (ReadResult.err e) =
      RWOutcome.exited 1
        (some ("Error " ++ toString e ++ " on read " ++ "standard input")) ∧
    masterStdinCall fdm (ReadResult.err eioErrno) = RWOutcome.exited 0 none := by
  refine ⟨?_, rfl⟩
  simp [masterStdinCall, read_write, h]

/-- Witness for the amended C2 at fdm 9 and errno 4. -/
theorem c2_stdin_read_errors_witness :
    masterStdinCall 9 (ReadResult.err 4) =
      RWOutcome.exited 1
        (some ("Error " ++ toString (4 : Nat) ++ " on read " ++ "standard input")) :=
  (c2_stdin_read_errors 9 4 (by decide)).1

/-- Claim C3: whenever a real terminal is attached to standard input at
startup, every parent exit path (normal termination after PTY closure,
fatal error through the diagnostic-and-exit routine, or the interrupt
signal) leaves the terminal mode equal to the mode captured before any
mutation, and the cleanup restoration runs exactly once. -/
theorem c3_terminal_restored_exactly_once (isatty1 : Bool) (m0 : Termios)
    (ws : Winsize) (path : ParentExit) :
    (parentRun true isatty1 m0 ws path).finalMode = m0 ∧
    (parentRun true isatty1 m0 ws path).cleanupRuns = 1 := by
  cases path <;> exact ⟨rfl, rfl⟩

/-- Claim C4 counterexample: with the three dup calls and execvp
succeeding but setsid failing, the child does not terminate with a
non-zero status: the setsid failure is ignored and the image is
replaced. -/
theorem c4_setsid_failure_not_fatal :
    slave ⟨true, true, true, false, true, true⟩ = SlaveOutcome.execed := by
  decide

/-- Claim C4 (amended): in the child half, a failure of any of the three
descriptor-duplication calls, or of the program-image replacement, is
fatal with a diagnostic and exit status 1, and on a successful execvp
control never returns; but the return values of setsid and of
ioctl(0, TIOCSCTTY, 1) are never examined: their failures do not
terminate the child, whose outcome is independent of them. -/
theorem c4_slave_failures (env : SlaveEnv) (s i : Bool) :
    (env.dup0 = false ∨ env.dup1 = false ∨ env.dup2 = false →
      slave env = SlaveOutcome.exited 1 (some "Error on dup()")) ∧
    (env.dup0 = true → env.dup1 = true → env.dup2 = true →
      (env.execOk = false →
        slave env = SlaveOutcome.exited 1 (some "Error on execvp()")) ∧
      (env.execOk = true → slave env = SlaveOutcome.execed)) ∧
    slave ⟨env.dup0, env.dup1, env.dup2, s, i, env.execOk⟩ = slave env := by
  obtain ⟨d0, d1, d2, so, io, eo⟩ := env
  cases d0 <;> cases d1 <;> cases d2 <;> cases so <;> cases io <;> cases eo <;>
    cases s <;> cases i <;> decide

/-- Witness for the amended C4: a dup failure is fatal, and a setsid
failure with everything else succeeding still reaches execvp. -/
theorem c4_slave_failures_witness :
    slave ⟨false, true, true, true, true, true⟩ =
      SlaveOutcome.exited 1 (some "Error on dup()") ∧
    slave ⟨true, true, true, false, true, true⟩ = SlaveOutcome.execed :=
  ⟨(c4_slave_failures ⟨false, true, true, true, true, true⟩ true true).1
     (Or.inl rfl),
   ((c4_slave_failures ⟨true, true, true, false, true, true⟩ true true).2.1
     rfl rfl rfl).2 rfl⟩

/-- Claim C5: in each relay cycle, when the read from a readable source
returns n >= 0 bytes, exactly those n bytes, in the order read, are
passed to the write on the opposite side: standard-input bytes go to the
master fd, master bytes go to real standard output (fd 1), with no
transformation, loss or truncation. -/
theorem c5_relay_bytes_exact (fdm : Nat) (bs : List Nat) :
    masterStdinCall fdm (ReadResult.ok bs) = RWOutcome.wrote fdm bs ∧
    masterPtyCall fdm (ReadResult.ok bs) = RWOutcome.wrote 1 bs :=
  ⟨rfl, rfl⟩

/-- Claim C6: invoked with ac <= 1, main prints the usage diagnostic to
stderr and exits with code 1 before any PTY allocation step: no
posix_openpt, grantpt or unlockpt action occurs. -/
theorem c6_usage_before_allocation (ac : Nat) (env : MainEnv) (h : ac ≤ 1) :
    mainTrace ac env = [MainAction.usageDiag, MainAction.exited 1] ∧
    MainAction.posixOpenpt ∉ mainTrace ac env ∧
    MainAction.grantptCall ∉ mainTrace ac env ∧
    MainAction.unlockptCall ∉ mainTrace ac env := by
  have ht : mainTrace ac env = [MainAction.usageDiag, MainAction.exited 1] := by
    simp [mainTrace, h]
  refine ⟨ht, ?_, ?_, ?_⟩ <;> rw [ht] <;> decide

/-- Witness for C6 at ac 1 (program name alone). -/
theorem c6_usage_before_allocation_witness :
    mainTrace 1 ⟨true, true, true, true⟩ =
      [MainAction.usageDiag, MainAction.exited 1] :=
  (c6_usage_before_allocation 1 ⟨true, true, true, true⟩ (by decide)).1

/-- Claim C7: when neither standard input nor standard output is a real
terminal, terminal_settings is a no-op: no fd chosen, no window-size
copy, no mode snapshot, no atexit restoration registered, no
siginterrupt call, no SIGINT handler, no raw-mode switch, no fatal
exit. -/
theorem c7_no_tty_noop (env : TermEnv) (h0 : env.isatty0 = false)
    (h1 : env.isatty1 = false) :
    terminal_settings env = ⟨none, none, none, false, none, false, false, none⟩ := by
  simp [terminal_settings, h0, h1]

/-- Witness for C7 at a concrete terminal-free environment. -/
theorem c7_no_tty_noop_witness :
    terminal_settings (TermEnv.mk false false (Except.ok ⟨false, 0⟩) ⟨24, 80⟩) =
      ⟨none, none, none, false, none, false, false, none⟩ :=
  c7_no_tty_noop (TermEnv.mk false false (Except.ok ⟨false, 0⟩) ⟨24, 80⟩) rfl rfl

/-- Claim C8: terminal_settings checks standard input before standard
output: when fd 0 is a tty it is chosen (even if fd 1 also is) and raw
mode is applied; when only fd 1 is a tty, its mode is captured and the
restoration registered, but raw mode is not applied. -/
theorem c8_stdin_first_raw_only_stdin (env : TermEnv) (t : Termios)
    (h : env.tcgetattrResult = Except.ok t) :
    (env.isatty0 = true →
      (terminal_settings env).chosenFd = some 0 ∧
      (terminal_settings env).saved = some t ∧
      (terminal_settings env).atexitCleanup = true ∧
      (terminal_settings env).rawApplied = true) ∧
    (env.isatty0 = false → env.isatty1 = true →
      (terminal_settings env).chosenFd = some 1 ∧
      (terminal_settings env).saved = some t ∧
      (terminal_settings env).atexitCleanup = true ∧
      (terminal_settings env).rawApplied = false) := by
  constructor
  · intro h0
    simp [terminal_settings, terminal_settings_rest, h0, h]
  · intro h0 h1
    simp [terminal_settings, terminal_settings_rest, h0, h1, h]

/-- Witness for C8 at an environment where both fds are terminals:
fd 0 is chosen and raw mode applied. -/
theorem c8_stdin_first_raw_only_stdin_witness :
    (terminal_settings (TermEnv.mk true true (Except.ok ⟨false, 7⟩) ⟨24, 80⟩)).chosenFd = some 0 ∧
    (terminal_settings (TermEnv.mk true true (Except.ok ⟨false, 7⟩) ⟨24, 80⟩)).saved = some ⟨false, 7⟩ ∧
    (terminal_settings (TermEnv.mk true true (Except.ok ⟨false, 7⟩) ⟨24, 80⟩)).atexitCleanup = true ∧
    (terminal_settings (TermEnv.mk true true (Except.ok ⟨false, 7⟩) ⟨24, 80⟩)).rawApplied = true :=
  (c8_stdin_first_raw_only_stdin
    (TermEnv.mk true true (Except.ok ⟨false, 7⟩) ⟨24, 80⟩) ⟨false, 7⟩ rfl).1 rfl

/-- Claim C9 counterexample: at a concrete startup with a real terminal
on standard input, terminal_settings passes flag 1 to siginterrupt, and
under the POSIX semantics of siginterrupt a flag of 1 means interrupted
blocking calls are not restarted: they fail with EINTR, contradicting
the claim that the interrupt is marked safely restartable. -/
theorem c9_siginterrupt_not_restartable :
    (terminal_settings (TermEnv.mk true false (Except.ok ⟨false, 0⟩) ⟨24, 80⟩)).siginterruptFlag = some 1 ∧
    siginterruptRestarts 1 = false := by
  decide

/-- Claim C9 (amended): with a real terminal attached, the SIGINT
handler is installed and performs an orderly exit(0) whose atexit
processing runs the registered restoration exactly once, leaving the
terminal in its captured mode; and SIGINT is configured with
siginterrupt flag 1, so interrupted blocking system calls fail with
EINTR rather than being restarted. -/
theorem c9_sigint_orderly_exit_not_restarted (isatty1 : Bool) (m0 : Termios)
    (ws : Winsize) :
    (terminal_settings ⟨true, isatty1, Except.ok m0, ws⟩).sigintHandler = true ∧
    (terminal_settings ⟨true, isatty1, Except.ok m0, ws⟩).siginterruptFlag = some 1 ∧
    siginterruptRestarts 1 = false ∧
    handler SIGINT = 0 ∧
    parentRun true isatty1 m0 ws ParentExit.sigint = ⟨m0, 0, 1⟩ :=
  ⟨rfl, rfl, rfl, rfl, rfl⟩

/-- Claim C10: with enough arguments and a successful allocation, main
never examines the result of opening the slave device: the trace runs
through the open straight to the fork with no exit action, and when that
open failed the failure surfaces only in the child, where the first dup
on the invalid descriptor is fatal with the dup diagnostic. -/
theorem c10_unchecked_slave_open (ac : Nat) (env : MainEnv) (h2 : 2 ≤ ac)
    (ho : env.openptOk = true) (hg : env.grantOk = true)
    (hu : env.unlockOk = true) :
    mainTrace ac env =
      [MainAction.posixOpenpt, MainAction.grantptCall, MainAction.unlockptCall,
       MainAction.termSettings, MainAction.openSlave, MainAction.forked] ∧
    (∀ c, MainAction.exited c ∉ mainTrace ac env) ∧
    (∀ s i e : Bool, slaveFromOpen false s i e =
      SlaveOutcome.exited 1 (some "Error on dup()")) := by
  have hac : ¬ ac ≤ 1 := by omega
  have ht : mainTrace ac env =
      [MainAction.posixOpenpt, MainAction.grantptCall, MainAction.unlockptCall,
       MainAction.termSettings, MainAction.openSlave, MainAction.forked] := by
    simp [mainTrace, hac, open_master, ho, hg, hu]
  refine ⟨ht, ?_, ?_⟩
  · intro c
    rw [ht]
    simp
  · intro s i e
    cases s <;> cases i <;> cases e <;> decide

/-- Witness for C10 at ac 2 with the slave open failing. -/
theorem c10_unchecked_slave_open_witness :
    mainTrace 2 ⟨true, true, true, false⟩ =
      [MainAction.posixOpenpt, MainAction.grantptCall, MainAction.unlockptCall,
       MainAction.termSettings, MainAction.openSlave, MainAction.forked] :=
  (c10_unchecked_slave_open 2 ⟨true, true, true, false⟩ (by decide)
    rfl rfl rfl).1
